import Mathlib

/-!
Verification development for the UniFi Drive API client (src/api.py,
class UniFiDriveClient).  The definitions below are a shallow embedding of
the client: pure helpers are translated directly, and the effectful
methods are modelled as pure functions over explicitly supplied response
scripts, returning their result together with a list of observable events
(HTTP requests issued, login calls performed).
-/

namespace UniFiDrive

/-- Decoded JSON value, the payload type of the client's requests.  The
client never inspects the payload, it only passes it through, so the exact
constructors matter little; what matters is that the empty object returned
on 404 and on non-JSON bodies is a distinguished value. -/
inductive JsonVal where
  | obj (fields : List (String × JsonVal))
  | arr (items : List JsonVal)
  | str (s : String)
  | num (n : Int)
  | boolean (b : Bool)
  | null

/-- The empty dict the Python code returns on 404 and non-JSON bodies. -/
def emptyObj : JsonVal := .obj []

/-- AuthState: the client fields self._csrf and self._token_expire_ms
(src/api.py lines 22-23). -/
structure AuthState where
  csrf : Option String
  token_expire_ms : Option Int
  deriving DecidableEq, Repr

/-- The auth-related response headers read by _update_auth_from_headers.
aiohttp header lookup is case-insensitive, so the two spellings of the
expiry header used by the code read the same value and are modelled as a
single field.  none = header absent. -/
structure RespHeaders where
  x_csrf_token : Option String
  x_updated_csrf_token : Option String
  x_token_expire_time : Option String
  deriving DecidableEq, Repr

/-- Python truthiness on an optional header value: an absent header and an
empty string are both falsy under the or-chains the code uses. -/
def truthy : Option String → Option String
  | some s => if s = "" then none else some s
  | none => none

/-- Accumulator loop for pyInt: consume decimal digits, fail on anything
else. -/
def digitsValGo (acc : Nat) : List Char → Option Nat
  | [] => some acc
  | c :: rest =>
    if c.isDigit then digitsValGo (acc * 10 + (c.toNat - 48)) rest else none

/-- Value of a non-empty all-digit string, none otherwise. -/
def digitsVal : List Char → Option Nat
  | [] => none
  | cs => digitsValGo 0 cs

/-- Models Python int() on the header strings that matter here: an optional
sign followed by decimal digits succeeds, anything else fails (raises
ValueError, which the caller suppresses). -/
def pyInt (s : String) : Option Int :=
  match s.data with
  | '-' :: rest => (digitsVal rest).map (fun n => -(n : Int))
  | '+' :: rest => (digitsVal rest).map (fun n => (n : Int))
  | cs => (digitsVal cs).map (fun n => (n : Int))

/-- Embedding of UniFiDriveClient._update_auth_from_headers (src/api.py
lines 52-58).  The CSRF field is assigned the or-chain of the two CSRF
headers and the old value, so a falsy (absent or empty) header keeps the
previous token.  The expiry field is reassigned only when the expiry
header is truthy and int() parses it; the assignment sits under
contextlib.suppress, so an unparsable value keeps the previous expiry. -/
def update_auth_from_headers (st : AuthState) (h : RespHeaders) : AuthState :=
  let csrf' := truthy h.x_csrf_token <|> truthy h.x_updated_csrf_token <|> st.csrf
  let expire' :=
    match truthy h.x_token_expire_time with
    | none => st.token_expire_ms
    | some xt =>
      match pyInt xt with
      | some v => some v
      | none => st.token_expire_ms
  { csrf := csrf', token_expire_ms := expire' }

/-- Embedding of _will_expire_within (src/api.py lines 60-64).  Python
truthiness: the guard `if not self._token_expire_ms` is taken both when
the field is None and when it is 0, so a stored expiry of exactly 0 is
treated like an unknown expiry and reports false. -/
def will_expire_within (st : AuthState) (now_ms : Int) (seconds : Int) : Bool :=
  match st.token_expire_ms with
  | none => false
  | some t => if t = 0 then false else decide (t - now_ms ≤ seconds * 1000)

/-- Embedding of ensure_authenticated (src/api.py lines 94-98): login() is
awaited exactly when _will_expire_within(300) holds; the function returns
whether that login happens.  When it returns false the method performs no
network call and leaves all state untouched. -/
def ensure_authenticated_logs_in (st : AuthState) (now_ms : Int) : Bool :=
  will_expire_within st now_ms 300

/-- The three RuntimeError shapes login() raises (src/api.py lines 87-92),
each carrying the response body text that was read on line 85. -/
inductive LoginError where
  | rateLimited (body : String)
  | authenticationFailed (status : Nat) (body : String)
  | requestFailed (status : Nat) (body : String)
  deriving DecidableEq, Repr

/-- The str() of the corresponding RuntimeError. -/
def LoginError.message : LoginError → String
  | .rateLimited b => "RATE_LIMIT: HTTP 429 - " ++ b
  | .authenticationFailed s b => "AUTH_FAILED: HTTP " ++ toString s ++ " - " ++ b
  | .requestFailed s b => "HTTP " ++ toString s ++ " - " ++ b

/-- Status classification performed by login() on the login response
(src/api.py lines 84-92): 429 first, then 401/403, then any other status
of at least 400; otherwise the method returns normally. -/
def login_classify (status : Nat) (text : String) : Except LoginError Unit :=
  if status = 429 then .error (.rateLimited text)
  else if status = 401 ∨ status = 403 then .error (.authenticationFailed status text)
  else if 400 ≤ status then .error (.requestFailed status text)
  else .ok ()

/-- The RuntimeError shapes _request_json raises (src/api.py lines
123-132), plus errors propagated unchanged out of the login() it performs
on a 401. -/
inductive ReqError where
  | notFound (url : String)
  | httpError (status : Nat)
  | loginErr (e : LoginError)
  deriving DecidableEq, Repr

/-- The str() of the corresponding RuntimeError (what the substring test
in _request_drive_json inspects). -/
def ReqError.message : ReqError → String
  | .notFound url => "HTTP 404 - " ++ url
  | .httpError s => "HTTP " ++ toString s
  | .loginErr e => e.message

/-- Substring test on character lists. -/
def charsContain (pat : List Char) : List Char → Bool
  | [] => decide (pat = [])
  | c :: rest => pat.isPrefixOf (c :: rest) || charsContain pat rest

/-- Python `pat in s` on strings. -/
def strContains (s pat : String) : Bool := charsContain pat.data s.data

/-- An HTTP response as _request_json observes it: status, the value of
the Content-Type header (empty string when absent), the result of
resp.text() (none models a read that raises), and the decoded JSON body. -/
structure Resp where
  status : Nat
  content_type : String
  text : Option String
  json : JsonVal

/-- Observable events of the effectful methods. -/
inductive Event where
  | httpRequest (method : String) (path : String)
  | login
  | ensureAuth
  | fetch (suffix : String)
  deriving DecidableEq, Repr

/-- Response classification of _request_json after the 401-retry check
(src/api.py lines 123-137).  On 404 it returns the empty object or raises
the NotFound-style error according to return_on_404.  On any other status
of at least 400, the code runs, under `with suppress(Exception)`, a body
read followed by a raise of the RuntimeError carrying status and body
text; that raise happens inside the suppress block, so it is itself
swallowed, and control always falls through to the bare raise that
carries only the status — the body text never reaches the caller, whether
or not resp.text() succeeds.  On success, the decoded JSON body is
returned when the Content-Type contains "application/json", and the empty
object otherwise. -/
def handle_response (return_on_404 : Bool) (url : String) (resp : Resp) :
    Except ReqError JsonVal :=
  if resp.status = 404 then
    if return_on_404 then .ok emptyObj else .error (.notFound url)
  else if 400 ≤ resp.status then
    .error (.httpError resp.status)
  else if strContains resp.content_type "application/json" then .ok resp.json
  else .ok emptyObj

/-- One attempt of _request_json with the 401 retry disabled, i.e. the
recursive call on src/api.py line 122, which runs with retry_on_401 False
(so a 401 here falls through to the generic status-at-least-400 branch)
and with return_on_404 at its default True.  The pair returned is the
call result together with the HTTP requests issued. -/
def request_json_noretry (return_on_404 : Bool) (base method path : String)
    (resp : Resp) : Except ReqError JsonVal × List Event :=
  (handle_response return_on_404 (base ++ path) resp, [Event.httpRequest method path])

/-- Embedding of _request_json with retry_on_401 True, its default
(src/api.py lines 100-137).  resp1 answers the first request.  If its
status is 401 the code awaits self.login() — outcome login_outcome,
logged as Event.login, errors propagating — and on success re-issues the
call through `self._request_json(method, path, retry_on_401=False)`;
resp2 answers that second request.  Note that the recursive call does not
forward return_on_404, which therefore reverts to its default True for
the retried attempt. -/
def request_json (return_on_404 : Bool) (base method path : String)
    (resp1 : Resp) (login_outcome : Except LoginError Unit) (resp2 : Resp) :
    Except ReqError JsonVal × List Event :=
  if resp1.status = 401 then
    match login_outcome with
    | .error e => (.error (.loginErr e), [Event.httpRequest method path, Event.login])
    | .ok _ =>
      let second := request_json_noretry true base method path resp2
      (second.fst, Event.httpRequest method path :: Event.login :: second.snd)
  else
    request_json_noretry return_on_404 base method path resp1

/-- The list mutation on src/api.py lines 161-163: if the successful
version is not already first, remove it and re-insert it at index 0. -/
def move_front (v : String) (l : List String) : List String :=
  if l.head? = some v then l else v :: l.erase v

/-- The version-probing loop of _request_drive_json (src/api.py lines
148-171).  The first list argument is the tuple() snapshot of
self._drive_api_versions taken at loop entry; the second is the current
version-preference list; the third is last_error.  try_version gives, per
version tag, the outcome of the inner _request_json call (made with
return_on_404 False).  An error whose str contains "HTTP 404" makes the
loop record it and continue with the next version; any other error
propagates immediately with the list untouched; on success the working
version is moved to the front and the result returned.  When the snapshot
is exhausted, the recorded last error is raised if there is one, and the
empty object is returned otherwise. -/
def request_drive_loop (try_version : String → Except ReqError JsonVal) :
    List String → List String → Option ReqError →
    Except ReqError JsonVal × List String
  | [], vs, last_error =>
    match last_error with
    | some e => (.error e, vs)
    | none => (.ok emptyObj, vs)
  | v :: rest, vs, _prev_error =>
    match try_version v with
    | .error err =>
      if strContains err.message "HTTP 404" then
        request_drive_loop try_version rest vs (some err)
      else (.error err, vs)
    | .ok result => (.ok result, move_front v vs)

/-- The versioned path built on src/api.py line 150. -/
def drive_path (version suffix : String) : String :=
  "/proxy/drive/api/" ++ version ++ "/" ++ suffix

/-- Embedding of _request_drive_json for one resource suffix: net gives
the outcome of _request_json for each full path; the loop runs on the
current preference list vs (the sequential case, where the snapshot
equals the list). -/
def request_drive_json (net : String → Except ReqError JsonVal)
    (suffix : String) (vs : List String) :
    Except ReqError JsonVal × List String :=
  request_drive_loop (fun v => net (drive_path v suffix)) vs vs none

/-- Embedding of get_storage_shares (src/api.py lines 180-181). -/
def get_storage_shares (net : String → Except ReqError JsonVal)
    (vs : List String) : Except ReqError JsonVal × List String :=
  request_drive_json net "shares" vs

/-- The outcomes of the six concurrent resource fetches awaited by
get_all via asyncio.gather (src/api.py lines 195-202). -/
structure FetchOutcomes where
  dev : Except ReqError JsonVal
  storage_root : Except ReqError JsonVal
  shares : Except ReqError JsonVal
  vols : Except ReqError JsonVal
  drives : Except ReqError JsonVal
  fan : Except ReqError JsonVal

/-- The fan-in of asyncio.gather plus the dict literal of src/api.py
lines 203-210: if all six fetches succeed the six-key dict is built,
otherwise gather propagates an exception and no dict is built.  The
first error in field order stands in for whichever exception gather
surfaces first; no theorem below depends on which one it is. -/
def gather6 (o : FetchOutcomes) : Except ReqError (List (String × JsonVal)) :=
  match o.dev with
  | .error e => .error e
  | .ok dev =>
    match o.storage_root with
    | .error e => .error e
    | .ok st =>
      match o.shares with
      | .error e => .error e
      | .ok sh =>
        match o.vols with
        | .error e => .error e
        | .ok vo =>
          match o.drives with
          | .error e => .error e
          | .ok dr =>
            match o.fan with
            | .error e => .error e
            | .ok fa =>
              .ok [("device", dev), ("storage", st), ("shares", sh),
                   ("volumes", vo), ("drives", dr), ("fan_control", fa)]

/-- Embedding of get_all (src/api.py lines 192-210): exactly one
ensure_authenticated() call first (ensure_outcome is the outcome of the
login it may perform; an error there propagates before any fetch is
dispatched), then the six resource fetches are dispatched concurrently,
and the snapshot is assembled by gather6. -/
def get_all (ensure_outcome : Except LoginError Unit) (o : FetchOutcomes) :
    Except ReqError (List (String × JsonVal)) × List Event :=
  match ensure_outcome with
  | .error e => (.error (.loginErr e), [Event.ensureAuth])
  | .ok _ =>
    (gather6 o,
     [Event.ensureAuth, Event.fetch "systems/device-info", Event.fetch "storage",
      Event.fetch "shares", Event.fetch "volumes", Event.fetch "drives",
      Event.fetch "systems/fan-control"])

/-- A sequence of _request_drive_json calls acting on the shared
version-preference list: each call runs the probing loop on the current
list (with its snapshot equal to that list) and leaves the list the loop
produced for the next call.  These calls are the only place in the client
that mutates self._drive_api_versions. -/
def run_drive_calls (calls : List (String → Except ReqError JsonVal))
    (vs : List String) : List String :=
  calls.foldl (fun l t => (request_drive_loop t l l none).snd) vs

/-- Concrete 401 response used in scenario theorems. -/
def resp401 : Resp := { status := 401, content_type := "", text := some "", json := emptyObj }

/-- Concrete 404 response used in scenario theorems. -/
def resp404 : Resp := { status := 404, content_type := "", text := some "", json := emptyObj }

/-- Concrete 500 response with retrievable body text "boom". -/
def resp500 : Resp := { status := 500, content_type := "", text := some "boom", json := emptyObj }

/-- A network in which every path answers 404: the outcome of the inner
_request_json call (return_on_404 False, as _request_drive_json makes it)
against a host that returns status 404 for every drive path. -/
def net_all_404 (path : String) : Except ReqError JsonVal :=
  (request_json false "https://192.168.1.10" "GET" path resp404 (Except.ok ()) resp404).fst

/-- A network in which the v1 shares path succeeds with payload 7 and
every other path answers a NotFound-style error. -/
def net_v1_only (path : String) : Except ReqError JsonVal :=
  if path = drive_path "v1" "shares" then .ok (JsonVal.num 7)
  else .error (.notFound path)

/-- The six fetch outcomes all succeeding, with distinct payloads. -/
def allOk : FetchOutcomes :=
  { dev := .ok (JsonVal.num 1), storage_root := .ok (JsonVal.num 2),
    shares := .ok (JsonVal.num 3), vols := .ok (JsonVal.num 4),
    drives := .ok (JsonVal.num 5), fan := .ok (JsonVal.num 6) }

/-!  Theorems.  Each claim of the specification is settled by exactly one
theorem below, with a witness theorem instantiating it when it carries
hypotheses. -/

/-- C9: after processing the headers of any response, the stored CSRF
token and token-expiry are overwritten only when the response actually
supplies a new value: falsy (absent or empty) CSRF headers leave the CSRF
token unchanged; an absent or unparsable expiry header leaves the expiry
unchanged; a known value is never cleared back to unknown; and a supplied
value does overwrite. -/
theorem update_auth_overwrites_only_on_new_value (st : AuthState) (h : RespHeaders) :
    (truthy h.x_csrf_token = none → truthy h.x_updated_csrf_token = none →
      (update_auth_from_headers st h).csrf = st.csrf) ∧
    (truthy h.x_token_expire_time = none →
      (update_auth_from_headers st h).token_expire_ms = st.token_expire_ms) ∧
    (∀ xt, truthy h.x_token_expire_time = some xt → pyInt xt = none →
      (update_auth_from_headers st h).token_expire_ms = st.token_expire_ms) ∧
    (st.csrf.isSome = true → ((update_auth_from_headers st h).csrf).isSome = true) ∧
    (st.token_expire_ms.isSome = true →
      ((update_auth_from_headers st h).token_expire_ms).isSome = true) ∧
    (∀ s, h.x_csrf_token = some s → s ≠ "" →
      (update_auth_from_headers st h).csrf = some s) ∧
    (∀ xt v, truthy h.x_token_expire_time = some xt → pyInt xt = some v →
      (update_auth_from_headers st h).token_expire_ms = some v) := by
  refine ⟨?_, ?_, ?_, ?_, ?_, ?_, ?_⟩
  · intro h1 h2
    simp [update_auth_from_headers, h1, h2]
  · intro h1
    simp [update_auth_from_headers, h1]
  · intro xt h1 h2
    simp [update_auth_from_headers, h1, h2]
  · intro hs
    cases hc1 : truthy h.x_csrf_token <;> cases hc2 : truthy h.x_updated_csrf_token <;>
      simp [update_auth_from_headers, hc1, hc2, hs]
  · intro hs
    cases hx : truthy h.x_token_expire_time with
    | none => simpa [update_auth_from_headers, hx] using hs
    | some xt =>
      cases hp : pyInt xt with
      | none => simpa [update_auth_from_headers, hx, hp] using hs
      | some v => simp [update_auth_from_headers, hx, hp]
  · intro s h1 h2
    simp [update_auth_from_headers, truthy, h1, h2]
  · intro xt v h1 h2
    simp [update_auth_from_headers, h1, h2]

/-- C9, witness: a response with no auth headers leaves a previously
known CSRF token in place. -/
theorem update_auth_overwrites_only_on_new_value_witness :
    (update_auth_from_headers { csrf := some "tok", token_expire_ms := some 5 }
        { x_csrf_token := none, x_updated_csrf_token := none,
          x_token_expire_time := none }).csrf = some "tok" :=
  (update_auth_overwrites_only_on_new_value _ _).1 rfl rfl

/-- C5, counterexample: a stored expiry of exactly 0 epoch ms — reachable
from a response header carrying the string 0 — is a known expiry that
lies in the past, so the claim requires a re-login; the code, however,
treats 0 as falsy in _will_expire_within and performs no login. -/
theorem ensure_authenticated_zero_expiry_cex :
    update_auth_from_headers { csrf := none, token_expire_ms := none }
        { x_csrf_token := none, x_updated_csrf_token := none,
          x_token_expire_time := some "0" }
      = { csrf := none, token_expire_ms := some 0 } ∧
    ensure_authenticated_logs_in { csrf := none, token_expire_ms := some 0 }
        1700000000000 = false ∧
    ((0 : Int) - 1700000000000 ≤ 300 * 1000) := by
  refine ⟨by decide, by decide, by decide⟩

/-- C5 (amended): ensure_authenticated triggers login() exactly when the
stored expiry is known, nonzero, and within 300 seconds of now or already
past; an unknown expiry — and, by Python falsiness, a stored expiry of
exactly 0 — makes it a no-op with no network call and no state change.
The concrete scenario holds: stored expiry 1700000000000 epoch ms at
current time 1699999999900 epoch ms triggers a re-login. -/
theorem ensure_authenticated_trigger :
    (∀ (st : AuthState) (now : Int),
        ensure_authenticated_logs_in st now = true ↔
          ∃ t, st.token_expire_ms = some t ∧ t ≠ 0 ∧ t - now ≤ 300 * 1000) ∧
    ensure_authenticated_logs_in { csrf := none, token_expire_ms := some 1700000000000 }
        1699999999900 = true := by
  constructor
  · intro st now
    cases hst : st.token_expire_ms with
    | none => simp [ensure_authenticated_logs_in, will_expire_within, hst]
    | some t =>
      by_cases h0 : t = 0
      · simp [ensure_authenticated_logs_in, will_expire_within, hst, h0]
      · simp [ensure_authenticated_logs_in, will_expire_within, hst, h0]
  · decide

/-- C6: login() classifies the login response status — 429 yields the
rate-limit error, 401 and 403 yield the authentication-failure error, any
other status of at least 400 yields the generic request failure, and any
status below 400 returns normally; every failure carries the response
body text (each message ends in the body), including the two concrete
scenarios of the claim. -/
theorem login_classify_spec :
    (∀ t, login_classify 429 t = .error (.rateLimited t)) ∧
    (∀ s t, s = 401 ∨ s = 403 → login_classify s t = .error (.authenticationFailed s t)) ∧
    (∀ s t, s ≠ 429 → s ≠ 401 → s ≠ 403 → 400 ≤ s →
      login_classify s t = .error (.requestFailed s t)) ∧
    (∀ s t, s < 400 → login_classify s t = .ok ()) ∧
    (∀ s t e, login_classify s t = .error e → ∃ p, LoginError.message e = p ++ t) ∧
    login_classify 429 "slow down" = .error (.rateLimited "slow down") ∧
    login_classify 403 "bad creds" = .error (.authenticationFailed 403 "bad creds") := by
  refine ⟨?_, ?_, ?_, ?_, ?_, rfl, rfl⟩
  · intro t
    rfl
  · intro s t h
    rcases h with h | h <;> subst h <;> rfl
  · intro s t h1 h2 h3 h4
    simp [login_classify, h1, h2, h3, h4]
  · intro s t h
    have h1 : s ≠ 429 := by omega
    have h2 : s ≠ 401 := by omega
    have h3 : s ≠ 403 := by omega
    have h4 : ¬ (400 ≤ s) := by omega
    simp [login_classify, h1, h2, h3, h4]
  · intro s t e h
    unfold login_classify at h
    split_ifs at h with h1 h2 h3
    · cases h
      exact ⟨"RATE_LIMIT: HTTP 429 - ", rfl⟩
    · cases h
      exact ⟨"AUTH_FAILED: HTTP " ++ toString s ++ " - ", rfl⟩
    · cases h
      exact ⟨"HTTP " ++ toString s ++ " - ", rfl⟩

/-- C6, witness: a 500 login response with body text oops fails with the
generic request failure carrying that body. -/
theorem login_classify_spec_witness :
    login_classify 500 "oops" = .error (.requestFailed 500 "oops") :=
  login_classify_spec.2.2.1 500 "oops" (by decide) (by decide) (by decide) (by decide)

/-- C8: a 404 response received by _request_json returns the empty object
when return_on_404 (treat-missing-as-empty) is true — never an error —
and fails with the NotFound-style error when it is false; in both cases
exactly one request is issued and no login is performed. -/
theorem request_json_404_handling (ro : Bool) (base m p : String)
    (r : Resp) (lo : Except LoginError Unit) (r2 : Resp) (h : r.status = 404) :
    (ro = true →
      request_json ro base m p r lo r2 = (.ok emptyObj, [Event.httpRequest m p])) ∧
    (ro = false →
      request_json ro base m p r lo r2
        = (.error (.notFound (base ++ p)), [Event.httpRequest m p])) ∧
    request_json_noretry ro base m p r
      = ((if ro then .ok emptyObj else .error (.notFound (base ++ p))),
         [Event.httpRequest m p]) := by
  refine ⟨?_, ?_, ?_⟩
  · intro hro
    subst hro
    simp [request_json, request_json_noretry, handle_response, h]
  · intro hro
    subst hro
    simp [request_json, request_json_noretry, handle_response, h]
  · by_cases hro : ro <;> simp [hro, request_json_noretry, handle_response, h]

/-- C8, witness: a 404 with treat-missing-as-empty true yields the empty
object. -/
theorem request_json_404_handling_witness :
    request_json true "https://192.168.1.10" "GET" "/proxy/drive/api/v2/shares"
        resp404 (.ok ()) resp404
      = (.ok emptyObj, [Event.httpRequest "GET" "/proxy/drive/api/v2/shares"]) :=
  (request_json_404_handling true "https://192.168.1.10" "GET"
    "/proxy/drive/api/v2/shares" resp404 (.ok ()) resp404 rfl).1 rfl

/-- C2 (code bug): for a 500 response whose body text boom is
retrievable, _request_json surfaces the bare RuntimeError HTTP 500 with
no body text: the raise that would carry status and body sits inside the
suppress block (src/api.py lines 129-131) and is swallowed there, so
control always falls through to the bare raise of line 132. -/
theorem request_json_500_body_lost :
    (request_json true "https://h" "GET" "/p" resp500 (.ok ()) resp500).fst
      = .error (.httpError 500) ∧
    ReqError.message (.httpError 500) = "HTTP 500" ∧
    strContains (ReqError.message (.httpError 500)) "boom" = false ∧
    resp500.text = some "boom" := by
  refine ⟨rfl, by decide, by decide, rfl⟩

/-- C1, counterexample: a call made with treat-missing-as-empty false (as
the version resolver makes it) that hits a 401 and then, after a
successful login, a 404, returns the empty object — so the retried call
is not issued with the original treat-missing-as-empty setting, under
which the very same 404 response fails with the NotFound-style error. -/
theorem request_json_retry_resets_404_flag_cex :
    (request_json false "https://h" "GET" "/p" resp401 (.ok ()) resp404).fst
      = .ok emptyObj ∧
    (request_json_noretry false "https://h" "GET" "/p" resp404).fst
      = .error (.notFound "https://h/p") :=
  ⟨rfl, rfl⟩

/-- C1 (amended): on a first-attempt 401 with retries enabled and a
successful login, exactly one login is performed and the same method and
path are re-issued exactly once with the retry disabled — but with
return_on_404 reverted to its default True rather than to the original
setting, since the recursive call does not forward it; if the re-issued
call again receives a 401 it fails with the RuntimeError HTTP 401 and no
further retry or login is performed. -/
theorem request_json_401_single_retry (ro : Bool) (base m p : String)
    (r1 r2 : Resp) (h1 : r1.status = 401) :
    (request_json ro base m p r1 (.ok ()) r2).snd
      = [Event.httpRequest m p, Event.login, Event.httpRequest m p] ∧
    (request_json ro base m p r1 (.ok ()) r2).fst
      = handle_response true (base ++ p) r2 ∧
    (r2.status = 401 →
      (request_json ro base m p r1 (.ok ()) r2).fst = .error (.httpError 401)) := by
  refine ⟨?_, ?_, ?_⟩
  · simp [request_json, request_json_noretry, h1]
  · simp [request_json, request_json_noretry, h1]
  · intro h2
    simp [request_json, request_json_noretry, handle_response, h1, h2]

/-- C1, witness: two consecutive 401 responses produce one login, one
retry of the same method and path, and the final RuntimeError HTTP 401. -/
theorem request_json_401_single_retry_witness :
    (request_json false "https://h" "GET" "/p" resp401 (.ok ()) resp401).fst
      = .error (.httpError 401) ∧
    (request_json false "https://h" "GET" "/p" resp401 (.ok ()) resp401).snd
      = [Event.httpRequest "GET" "/p", Event.login, Event.httpRequest "GET" "/p"] :=
  ⟨(request_json_401_single_retry false "https://h" "GET" "/p" resp401 resp401 rfl).2.2 rfl,
   (request_json_401_single_retry false "https://h" "GET" "/p" resp401 resp401 rfl).1⟩

/-- C3, counterexample: with the appliance answering 404 on both the v2
and the v1 shares path, get_storage_shares propagates the NotFound
RuntimeError of the last probed version instead of returning the empty
object. -/
theorem get_storage_shares_both_404_cex :
    (get_storage_shares net_all_404 ["v2", "v1"]).fst
      = .error (.notFound "https://192.168.1.10/proxy/drive/api/v1/shares") ∧
    (get_storage_shares net_all_404 ["v2", "v1"]).fst ≠ .ok emptyObj := by
  refine ⟨rfl, fun hcontra => ?_⟩
  rw [show (get_storage_shares net_all_404 ["v2", "v1"]).fst
      = .error (.notFound "https://192.168.1.10/proxy/drive/api/v1/shares") from rfl]
    at hcontra
  exact Except.noConfusion hcontra

/-- C3 (amended): if both the v2 and the v1 shares fetch fail with errors
whose text contains HTTP 404, get_storage_shares raises the error of the
last probed version (v1) rather than returning an empty object, and the
version preference list is left untouched. -/
theorem get_storage_shares_both_404_raises
    (net : String → Except ReqError JsonVal) (e2 e1 : ReqError)
    (h2 : net (drive_path "v2" "shares") = .error e2)
    (h1 : net (drive_path "v1" "shares") = .error e1)
    (c2 : strContains (ReqError.message e2) "HTTP 404" = true)
    (c1 : strContains (ReqError.message e1) "HTTP 404" = true) :
    get_storage_shares net ["v2", "v1"] = (.error e1, ["v2", "v1"]) := by
  simp [get_storage_shares, request_drive_json, request_drive_loop, h2, h1, c2, c1]

/-- C3, witness for the amended claim: the all-404 network makes
get_storage_shares fail with the v1 NotFound error. -/
theorem get_storage_shares_both_404_raises_witness :
    get_storage_shares net_all_404 ["v2", "v1"]
      = (.error (.notFound "https://192.168.1.10/proxy/drive/api/v1/shares"),
         ["v2", "v1"]) :=
  get_storage_shares_both_404_raises net_all_404
    (.notFound "https://192.168.1.10/proxy/drive/api/v2/shares")
    (.notFound "https://192.168.1.10/proxy/drive/api/v1/shares")
    rfl rfl (by decide) (by decide)

/-- The list produced by move_front always starts with the moved tag. -/
theorem move_front_head (v : String) (l : List String) :
    (move_front v l).head? = some v := by
  unfold move_front
  split
  · next h => exact h
  · rfl

/-- Processing the snapshot, every version before v failing with an error
whose text contains HTTP 404 and v succeeding with payload j, the probing
loop returns j with v moved to the front of the preference list. -/
theorem request_drive_loop_success (t : String → Except ReqError JsonVal)
    (v : String) (rest : List String) (j : JsonVal) (hv : t v = .ok j) :
    ∀ (pre : List String),
      (∀ u ∈ pre, ∃ e, t u = .error e ∧ strContains (ReqError.message e) "HTTP 404" = true) →
      ∀ (vs : List String) (le : Option ReqError),
        request_drive_loop t (pre ++ v :: rest) vs le = (.ok j, move_front v vs)
  | [], _, vs, le => by simp [request_drive_loop, hv]
  | u :: pre, hpre, vs, le => by
    obtain ⟨e, he, hc⟩ := hpre u (by simp)
    simp only [List.cons_append, request_drive_loop, he, hc, if_true]
    exact request_drive_loop_success t v rest j hv pre
      (fun u hu => hpre u (by simp [hu])) vs (some e)

/-- C4: whenever a versioned fetch succeeds on tag v after every earlier
tag of the snapshot failed with an HTTP 404 style error, the result is
returned with v moved to the front of the preference list (a no-op when v
is already first), so the next fetch for any resource tries v first. -/
theorem request_drive_success_moves_version_front
    (t : String → Except ReqError JsonVal) (pre : List String) (v : String)
    (rest : List String) (j : JsonVal) (vs : List String) (le : Option ReqError)
    (hpre : ∀ u ∈ pre, ∃ e, t u = .error e ∧ strContains (ReqError.message e) "HTTP 404" = true)
    (hv : t v = .ok j) :
    request_drive_loop t (pre ++ v :: rest) vs le = (.ok j, move_front v vs) ∧
    (request_drive_loop t (pre ++ v :: rest) vs le).snd.head? = some v := by
  have h := request_drive_loop_success t v rest j hv pre hpre vs le
  refine ⟨h, ?_⟩
  rw [h]
  exact move_front_head v vs

/-- C4, witness: starting from the preference list v2 then v1, a network
on which v2 404s and v1 succeeds yields the v1 payload and the list
reordered to v1 then v2. -/
theorem request_drive_success_moves_version_front_witness :
    request_drive_loop (fun v => net_v1_only (drive_path v "shares"))
        (["v2"] ++ "v1" :: []) ["v2", "v1"] none
      = (.ok (JsonVal.num 7), move_front "v1" ["v2", "v1"]) ∧
    (request_drive_loop (fun v => net_v1_only (drive_path v "shares"))
        (["v2"] ++ "v1" :: []) ["v2", "v1"] none).snd.head? = some "v1" :=
  request_drive_success_moves_version_front
    (fun v => net_v1_only (drive_path v "shares")) ["v2"] "v1" [] (JsonVal.num 7)
    ["v2", "v1"] none
    (by
      intro u hu
      have hu2 : u = "v2" := by simpa using hu
      subst hu2
      exact ⟨.notFound (drive_path "v2" "shares"), rfl, by decide⟩)
    rfl

/-- A successful gather6 requires every one of the six fetch outcomes to
be a success. -/
theorem gather6_ok_shape (o : FetchOutcomes) (s : List (String × JsonVal))
    (h : gather6 o = .ok s) :
    (∃ x, o.dev = .ok x) ∧ (∃ x, o.storage_root = .ok x) ∧ (∃ x, o.shares = .ok x) ∧
    (∃ x, o.vols = .ok x) ∧ (∃ x, o.drives = .ok x) ∧ (∃ x, o.fan = .ok x) := by
  cases hd : o.dev <;> cases hst : o.storage_root <;> cases hsh : o.shares <;>
    cases hvo : o.vols <;> cases hdr : o.drives <;> cases hfa : o.fan <;>
    simp_all [gather6]

/-- C7: get_all performs exactly one ensure_authenticated call per
invocation; when that call succeeds it dispatches exactly the six
resource fetches; the invocation returns a snapshot — carrying exactly
the six keys device, storage, shares, volumes, drives, fan_control —
precisely when all six fetches succeed, and when any one of the six fails
the whole call fails with no partial snapshot. -/
theorem get_all_snapshot (eo : Except LoginError Unit) (o : FetchOutcomes) :
    (get_all eo o).snd.count Event.ensureAuth = 1 ∧
    (eo = .ok () →
      (get_all eo o).snd
        = [Event.ensureAuth, Event.fetch "systems/device-info", Event.fetch "storage",
           Event.fetch "shares", Event.fetch "volumes", Event.fetch "drives",
           Event.fetch "systems/fan-control"]) ∧
    (∀ dev st sh vo dr fa,
      o.dev = .ok dev → o.storage_root = .ok st → o.shares = .ok sh →
      o.vols = .ok vo → o.drives = .ok dr → o.fan = .ok fa → eo = .ok () →
      (get_all eo o).fst
        = .ok [("device", dev), ("storage", st), ("shares", sh),
               ("volumes", vo), ("drives", dr), ("fan_control", fa)]) ∧
    ((∃ e, o.dev = .error e ∨ o.storage_root = .error e ∨ o.shares = .error e ∨
        o.vols = .error e ∨ o.drives = .error e ∨ o.fan = .error e) →
      ∀ s, (get_all eo o).fst ≠ .ok s) := by
  refine ⟨?_, ?_, ?_, ?_⟩
  · cases eo <;> simp [get_all]
  · intro heo
    subst heo
    rfl
  · intro dev st sh vo dr fa h1 h2 h3 h4 h5 h6 heo
    subst heo
    simp [get_all, gather6, h1, h2, h3, h4, h5, h6]
  · rintro ⟨e, hcase⟩ s hcontra
    cases eo with
    | error le =>
      rw [show (get_all (.error le) o).fst = .error (.loginErr le) from rfl] at hcontra
      exact Except.noConfusion hcontra
    | ok u =>
      have hg : gather6 o = .ok s := hcontra
      have shape := gather6_ok_shape o s hg
      rcases hcase with h | h | h | h | h | h
      · obtain ⟨x, hx⟩ := shape.1
        rw [h] at hx
        exact Except.noConfusion hx
      · obtain ⟨x, hx⟩ := shape.2.1
        rw [h] at hx
        exact Except.noConfusion hx
      · obtain ⟨x, hx⟩ := shape.2.2.1
        rw [h] at hx
        exact Except.noConfusion hx
      · obtain ⟨x, hx⟩ := shape.2.2.2.1
        rw [h] at hx
        exact Except.noConfusion hx
      · obtain ⟨x, hx⟩ := shape.2.2.2.2.1
        rw [h] at hx
        exact Except.noConfusion hx
      · obtain ⟨x, hx⟩ := shape.2.2.2.2.2
        rw [h] at hx
        exact Except.noConfusion hx

/-- C7, witness: with authentication fresh and all six fetches
succeeding, get_all returns the six-key snapshot. -/
theorem get_all_snapshot_witness :
    (get_all (.ok ()) allOk).fst
      = .ok [("device", JsonVal.num 1), ("storage", JsonVal.num 2),
             ("shares", JsonVal.num 3), ("volumes", JsonVal.num 4),
             ("drives", JsonVal.num 5), ("fan_control", JsonVal.num 6)] :=
  (get_all_snapshot (.ok ()) allOk).2.2.1 (JsonVal.num 1) (JsonVal.num 2)
    (JsonVal.num 3) (JsonVal.num 4) (JsonVal.num 5) (JsonVal.num 6)
    rfl rfl rfl rfl rfl rfl rfl

/-- Moving a member of a list to the front permutes the list. -/
theorem move_front_perm (v : String) (l : List String) (h : v ∈ l) :
    (move_front v l).Perm l := by
  unfold move_front
  split
  · exact List.Perm.refl l
  · exact (List.perm_cons_erase h).symm

/-- One run of the probing loop permutes the preference list provided the
snapshot only holds tags of the current list (the snapshot is taken from
the list itself, so this always holds). -/
theorem request_drive_loop_perm (t : String → Except ReqError JsonVal) :
    ∀ (snap vs : List String) (le : Option ReqError),
      (∀ u ∈ snap, u ∈ vs) → ((request_drive_loop t snap vs le).snd).Perm vs
  | [], vs, le, _ => by
    cases le <;> exact List.Perm.refl vs
  | u :: snap, vs, le, hsub => by
    simp only [request_drive_loop]
    cases ht : t u with
    | error err =>
      by_cases hc : strContains (ReqError.message err) "HTTP 404" = true
      · simp only [hc, if_true]
        exact request_drive_loop_perm t snap vs (some err)
          (fun x hx => hsub x (by simp [hx]))
      · simp only [eq_false_of_ne_true hc, if_false]
        exact List.Perm.refl vs
    | ok result =>
      exact move_front_perm u vs (hsub u (by simp))

/-- C10: across any sequence of drive fetches — the only operations that
mutate the version preference list — the list stays a permutation of its
initial contents: it still holds exactly the tags v2 and v1, each exactly
once, so probing can never lose a version nor probe an unconfigured
tag. -/
theorem drive_versions_always_permutation
    (calls : List (String → Except ReqError JsonVal)) :
    (run_drive_calls calls ["v2", "v1"]).Perm ["v2", "v1"] ∧
    (run_drive_calls calls ["v2", "v1"]).count "v2" = 1 ∧
    (run_drive_calls calls ["v2", "v1"]).count "v1" = 1 := by
  have main : ∀ (cs : List (String → Except ReqError JsonVal)) (vs : List String),
      (run_drive_calls cs vs).Perm vs := by
    intro cs
    induction cs with
    | nil => intro vs; exact List.Perm.refl vs
    | cons c cs ih =>
      intro vs
      have h1 : ((request_drive_loop c vs vs none).snd).Perm vs :=
        request_drive_loop_perm c vs vs none (fun u hu => hu)
      have h2 := ih ((request_drive_loop c vs vs none).snd)
      exact h2.trans h1
  have hp := main calls ["v2", "v1"]
  refine ⟨hp, ?_, ?_⟩
  · rw [hp.count_eq]
    decide
  · rw [hp.count_eq]
    decide

end UniFiDrive
